import Mathlib

/-!
Shallow embedding of the batch-ingestion PySpark script (`batch_aggregation.py`)
of the fraud-detection repository, together with theorems settling the
specification claims about it.

Modelling conventions:
* timestamps (`TimestampType`) are integers counting seconds;
* `DoubleType` amounts and averages are rationals (`ℚ`), so every arithmetic
  identity of the engine is exact;
* the nullable `LongType` column `cc_num` is `Option Int`;
* Spark SQL division (`Divide`) returns NULL when the divisor is zero
  (default, non-ANSI mode); it is embedded as `spark_div : ℚ → ℚ → Option ℚ`;
* a `RANGE BETWEEN <d> PRECEDING AND CURRENT ROW` frame of a row contains every
  row of the same partition whose order-by value lies in the closed interval
  `[t - d, t]` (peer rows included), so the frame of a row depends only on the
  row and the partition content, not on the position of the row in the sort;
* the SageMaker feature-store client is an external collaborator: it is passed
  in as an acknowledgment function `ack` saying which `put_record` calls return
  HTTP status 200, and the publish-time clock `time.time()` as a natural `t`.
-/

/-- Input schema of `define_schema`: `tid`, `datetime`, `cc_num`, `amount`,
`fraud_label`. -/
structure Transaction where
  tid : String
  datetime : Int
  cc_num : Option Int
  amount : ℚ
  fraud_label : Option String
deriving DecidableEq, Repr

/-- One output row of the Spark SQL query of `aggregate_features`: the input
row plus the four window aggregates and the three ratio columns. -/
structure WindowedRecord where
  tx : Transaction
  num_trans_last_10m : Nat
  avg_amt_last_10m : ℚ
  num_trans_last_1w : Nat
  avg_amt_last_1w : ℚ
  amt_ratio1 : Option ℚ
  amt_ratio2 : Option ℚ
  count_ratio : Option ℚ
deriving DecidableEq, Repr

/-- Spark SQL `Divide` in default (non-ANSI) mode: `x / 0` is NULL. -/
def spark_div (x y : ℚ) : Option ℚ :=
  if y = 0 then none else some (x / y)

/-- Membership of row `r` in the `RANGE <delta> PRECEDING` frame of row `cur`
(partitioned by `cc_num`, ordered by `datetime`): same partition key and
`datetime` in the closed interval `[cur.datetime - delta, cur.datetime]`. -/
def in_window (delta : Int) (cur r : Transaction) : Bool :=
  decide (r.cc_num = cur.cc_num) &&
  decide (cur.datetime - delta ≤ r.datetime) &&
  decide (r.datetime ≤ cur.datetime)

/-- The rows of the frame of `cur` with horizon `delta` inside the input
collection `txs`. -/
def window_rows (delta : Int) (txs : List Transaction) (cur : Transaction) :
    List Transaction :=
  txs.filter (fun r => in_window delta cur r)

/-- SQL `AVG(amount)` over a frame: arithmetic mean of the `amount` column. -/
def avg_amount (l : List Transaction) : ℚ :=
  (l.map (fun r => r.amount)).sum / (l.length : ℚ)

/-- Ten minutes, in seconds (`INTERVAL 10 MINUTE`). -/
def shortHorizon : Int := 600

/-- One week, in seconds (`INTERVAL 1 WEEK`). -/
def longHorizon : Int := 604800

/-- The output row of the window query for input row `cur` of collection
`txs`: `COUNT(*)` and `AVG(amount)` over the 10-minute and 1-week frames and
the three ratio columns `amt_ratio1`, `amt_ratio2`, `count_ratio`. -/
def windowed (txs : List Transaction) (cur : Transaction) : WindowedRecord :=
  { tx := cur
    num_trans_last_10m := (window_rows shortHorizon txs cur).length
    avg_amt_last_10m := avg_amount (window_rows shortHorizon txs cur)
    num_trans_last_1w := (window_rows longHorizon txs cur).length
    avg_amt_last_1w := avg_amount (window_rows longHorizon txs cur)
    amt_ratio1 := spark_div (avg_amount (window_rows shortHorizon txs cur))
      (avg_amount (window_rows longHorizon txs cur))
    amt_ratio2 := spark_div cur.amount (avg_amount (window_rows longHorizon txs cur))
    count_ratio := spark_div ((window_rows shortHorizon txs cur).length : ℚ)
      ((window_rows longHorizon txs cur).length : ℚ) }

/-- `aggregate_features`: the Spark SQL window query produces exactly one
output row per input row, in input order. -/
def aggregate_features (txs : List Transaction) : List WindowedRecord :=
  txs.map (windowed txs)

/-- `dense_rank` over `Window.partitionBy(cc_num).orderBy(desc(datetime))`
equals 1 exactly when no row of the same partition has a strictly larger
`datetime`. -/
def is_rank_one (dfs : List WindowedRecord) (r : WindowedRecord) : Bool :=
  dfs.all (fun s =>
    !(decide (s.tx.cc_num = r.tx.cc_num)) || decide (s.tx.datetime ≤ r.tx.datetime))

/-- The projection `select('cc_num', 'num_trans_last_1w', 'avg_amt_last_1w')`
of `group_by_card_number`. -/
structure SlicedRow where
  cc_num : Option Int
  num_trans_last_1w : Nat
  avg_amt_last_1w : ℚ
deriving DecidableEq, Repr

/-- The column projection applied to each rank-1 row. -/
def slice_row (r : WindowedRecord) : SlicedRow :=
  { cc_num := r.tx.cc_num
    num_trans_last_1w := r.num_trans_last_1w
    avg_amt_last_1w := r.avg_amt_last_1w }

/-- `group_by_card_number`: keep the rows whose `dense_rank` (per `cc_num`,
descending `datetime`) is 1 and project the snapshot columns. -/
def group_by_card_number (dfs : List WindowedRecord) : List SlicedRow :=
  (dfs.filter (fun r => is_rank_one dfs r)).map slice_row

/-- The rows of the `cc_num = key` partition of the aggregated stream. -/
def key_rows (dfs : List WindowedRecord) (key : Option Int) : List WindowedRecord :=
  dfs.filter (fun r => decide (r.tx.cc_num = key))

/-- One `{FeatureName, ValueAsString}` entry of a feature-store record. -/
structure Feature where
  FeatureName : String
  ValueAsString : String
deriving DecidableEq, Repr

/-- Banker-free model of Python `round(x, 2)` on the rational amounts:
nearest-cent rounding. -/
def pyRound2 (q : ℚ) : ℚ := ((round (q * 100) : ℤ) : ℚ) / 100

/-- The record built by `transform_row` for one row that passes the
`if cc_num:` truthiness test, whose key is `n`. -/
def row_features (n : Int) (row : SlicedRow) : List Feature :=
  [{ FeatureName := "cc_num", ValueAsString := toString n },
   { FeatureName := "num_trans_last_1w", ValueAsString := toString row.num_trans_last_1w },
   { FeatureName := "avg_amt_last_1w", ValueAsString := toString (pyRound2 row.avg_amt_last_1w) }]

/-- Python truthiness of the nullable `cc_num` column: `None` and `0` are
falsy. -/
def truthy (x : Option Int) : Bool :=
  match x with
  | none => false
  | some n => decide (n ≠ 0)

/-- `transform_row`: build one feature-store record per collected row, silently
skipping rows whose `cc_num` is falsy (`None` or `0`). -/
def transform_row (rows : List SlicedRow) : List (List Feature) :=
  rows.filterMap (fun row =>
    match row.cc_num with
    | none => none
    | some n => if n = 0 then none else some (row_features n row))

/-- `TOTAL_UNIQUE_USERS`: the hard-coded expected success count. -/
def TOTAL_UNIQUE_USERS : Nat := 10000

/-- `FEATURE_GROUP` name constant of the script. -/
def FEATURE_GROUP : String := "cc-agg-batch-fg"

/-- Final state of the `write_to_feature_store` loop: the records sent to
`put_record` (in order) and the accumulated success and failure counts. -/
structure SinkResult where
  published : List (List Feature)
  success : Nat
  fail : Nat
deriving DecidableEq, Repr

/-- `write_to_feature_store`, with the feature-store client abstracted by
`ack` (true exactly when `put_record` answers HTTP 200) and the publish-time
clock by `t`: every record gets `trans_time = str(int(round(time.time())))`
appended, is published, and is counted as a success or a failure. -/
def write_to_feature_store (t : Nat) (ack : List Feature → Bool) :
    List (List Feature) → SinkResult
  | [] => { published := [], success := 0, fail := 0 }
  | record :: rest =>
    let record' := record ++ [{ FeatureName := "trans_time", ValueAsString := toString t }]
    let st := write_to_feature_store t ack rest
    if ack record' then
      { published := record' :: st.published, success := st.success + 1, fail := st.fail }
    else
      { published := record' :: st.published, success := st.success, fail := st.fail + 1 }

/-- The two `assert` statements at the end of `write_to_feature_store`:
`success == TOTAL_UNIQUE_USERS` and `fail == 0`. -/
def sink_postcondition (st : SinkResult) : Bool :=
  decide (st.success = TOTAL_UNIQUE_USERS) && decide (st.fail = 0)

/-- Number of distinct `cc_num` values appearing in the input. -/
def distinct_key_count (txs : List Transaction) : Nat :=
  ((txs.map (fun tx => tx.cc_num)).dedup).length

/-- The three-transaction scenario of the specification: one account, events
at 10:00, 10:05 and 10:15 (as seconds of the day) with amounts 10, 20, 30. -/
def exampleTxs : List Transaction :=
  [{ tid := "t1", datetime := 36000, cc_num := some 1, amount := 10, fraud_label := none },
   { tid := "t2", datetime := 36300, cc_num := some 1, amount := 20, fraud_label := none },
   { tid := "t3", datetime := 36900, cc_num := some 1, amount := 30, fraud_label := none }]

/-- The third example transaction (10:15, amount 30). -/
def exTx3 : Transaction :=
  { tid := "t3", datetime := 36900, cc_num := some 1, amount := 30, fraud_label := none }

/-- Single-transaction input used by concrete counterexamples and witnesses:
one account key, one transaction of amount 10 at time 0. -/
def cexTxs : List Transaction :=
  [{ tid := "t1", datetime := 0, cc_num := some 1, amount := 10, fraud_label := none }]

/-- One-transaction input whose amount is 0, so the 1-week mean is 0 and the
two amount ratios have a zero denominator. -/
def zeroTx : Transaction :=
  { tid := "z1", datetime := 0, cc_num := some 1, amount := 0, fraud_label := none }

/-- Input list containing just `zeroTx`. -/
def zeroTxs : List Transaction := [zeroTx]

/-- Two transactions of the same account key with the same event time: an
event-time tie inside one partition. -/
def tieTxs : List Transaction :=
  [{ tid := "a", datetime := 0, cc_num := some 1, amount := 10, fraud_label := none },
   { tid := "b", datetime := 0, cc_num := some 1, amount := 20, fraud_label := none }]

/-- A latest-state row with a truthy account key, used by concrete witnesses. -/
def snapRow : SlicedRow :=
  { cc_num := some 5, num_trans_last_1w := 2, avg_amt_last_1w := 20 }

/-- Latest-state rows with a null key, a zero key, and a truthy key. -/
def skipRows : List SlicedRow :=
  [{ cc_num := none, num_trans_last_1w := 1, avg_amt_last_1w := 10 },
   { cc_num := some 0, num_trans_last_1w := 1, avg_amt_last_1w := 10 },
   snapRow]


/-! ### Helper lemmas -/

lemma self_in_window (delta : Int) (hd : 0 ≤ delta) (cur : Transaction) :
    in_window delta cur cur = true := by
  simp only [in_window, Bool.and_eq_true, decide_eq_true_eq]
  refine ⟨⟨trivial, ?_⟩, le_refl _⟩
  omega

lemma window_short_sublist_long (txs : List Transaction) (cur : Transaction) :
    List.Sublist (window_rows shortHorizon txs cur) (window_rows longHorizon txs cur) := by
  apply List.monotone_filter_right
  intro a ha
  simp only [in_window, Bool.and_eq_true, decide_eq_true_eq, shortHorizon, longHorizon] at ha ⊢
  obtain ⟨⟨h1, h2⟩, h3⟩ := ha
  exact ⟨⟨h1, by omega⟩, h3⟩

lemma write_to_feature_store_published (t : Nat) (ack : List Feature → Bool)
    (records : List (List Feature)) :
    (write_to_feature_store t ack records).published =
      records.map (fun r =>
        r ++ [{ FeatureName := "trans_time", ValueAsString := toString t }]) := by
  induction records with
  | nil => rfl
  | cons record rest ih =>
    simp only [write_to_feature_store, List.map_cons]
    split <;> simpa using ih

lemma write_to_feature_store_counts (t : Nat) (ack : List Feature → Bool)
    (records : List (List Feature)) :
    (write_to_feature_store t ack records).success +
      (write_to_feature_store t ack records).fail = records.length := by
  induction records with
  | nil => rfl
  | cons record rest ih =>
    simp only [write_to_feature_store, List.length_cons]
    split <;> simp <;> omega

/-! ### Claim 8 -/

/-- C8: given any finite input sequence of Transactions, the Windowed
Aggregator (`aggregate_features`) produces exactly one WindowedRecord per
input Transaction, none dropped and none duplicated: mapping each output
record back to its underlying transaction recovers the input list exactly. -/
theorem claim8_one_record_per_transaction (txs : List Transaction) :
    (aggregate_features txs).map (fun w => w.tx) = txs := by
  have aux : ∀ l : List Transaction, (l.map (windowed txs)).map (fun w => w.tx) = l := by
    intro l
    induction l with
    | nil => rfl
    | cons a t ih =>
      simp only [List.map_cons, ih]
      rfl
  exact aux txs

/-! ### Claim 4 -/

/-- C4: every record output by the Windowed Aggregator has `count_short ≥ 1`,
`count_long ≥ 1`, and `count_short ≤ count_long` (the 10-minute frame is a
sub-frame of the 1-week frame and always contains the record itself). -/
theorem claim4_count_invariants (txs : List Transaction) (w : WindowedRecord)
    (hw : w ∈ aggregate_features txs) :
    1 ≤ w.num_trans_last_10m ∧ 1 ≤ w.num_trans_last_1w ∧
      w.num_trans_last_10m ≤ w.num_trans_last_1w := by
  rcases List.mem_map.mp hw with ⟨cur, hcur, rfl⟩
  have h1 : cur ∈ window_rows shortHorizon txs cur :=
    List.mem_filter.mpr ⟨hcur, self_in_window _ (by decide) cur⟩
  have h2 : cur ∈ window_rows longHorizon txs cur :=
    List.mem_filter.mpr ⟨hcur, self_in_window _ (by decide) cur⟩
  refine ⟨?_, ?_, ?_⟩
  · exact List.length_pos.mpr (List.ne_nil_of_mem h1)
  · exact List.length_pos.mpr (List.ne_nil_of_mem h2)
  · exact (window_short_sublist_long txs cur).length_le

/-- Witness for C4 at the concrete three-transaction example input. -/
theorem claim4_witness :
    1 ≤ (windowed exampleTxs
          { tid := "t3", datetime := 36900, cc_num := some 1, amount := 30,
            fraud_label := none }).num_trans_last_10m ∧
    1 ≤ (windowed exampleTxs
          { tid := "t3", datetime := 36900, cc_num := some 1, amount := 30,
            fraud_label := none }).num_trans_last_1w ∧
    (windowed exampleTxs
          { tid := "t3", datetime := 36900, cc_num := some 1, amount := 30,
            fraud_label := none }).num_trans_last_10m ≤
      (windowed exampleTxs
          { tid := "t3", datetime := 36900, cc_num := some 1, amount := 30,
            fraud_label := none }).num_trans_last_1w :=
  claim4_count_invariants exampleTxs _
    (List.mem_map_of_mem (windowed exampleTxs) (by simp [exampleTxs]))

/-! ### Claim 2 -/

/-- C2 (amended): the Snapshot Sink accumulates success and failure counts
across the whole batch (their sum is the number of attempted records) and the
end-of-run assertion checks that the success count equals the hard-coded
constant `TOTAL_UNIQUE_USERS = 10000` (not the number of distinct account keys
observed in the input) and that the failure count is zero. -/
theorem claim2_amended_sink_assert (t : Nat) (ack : List Feature → Bool)
    (records : List (List Feature)) :
    (write_to_feature_store t ack records).success +
        (write_to_feature_store t ack records).fail = records.length ∧
    (sink_postcondition (write_to_feature_store t ack records) = true ↔
      (write_to_feature_store t ack records).success = TOTAL_UNIQUE_USERS ∧
        (write_to_feature_store t ack records).fail = 0) := by
  refine ⟨write_to_feature_store_counts t ack records, ?_⟩
  simp [sink_postcondition]

/-- C2 counterexample: a run on a one-transaction input (one distinct account
key) in which every `put_record` call succeeds ends with success count equal to
the distinct-key count and failure count zero, yet the run-level assertion
still fails, because the code compares the success count against the
hard-coded `TOTAL_UNIQUE_USERS`, not against the observed distinct-key
count. -/
theorem claim2_counterexample :
    (write_to_feature_store 0 (fun _ => true)
        (transform_row (group_by_card_number (aggregate_features cexTxs)))).success
      = distinct_key_count cexTxs ∧
    (write_to_feature_store 0 (fun _ => true)
        (transform_row (group_by_card_number (aggregate_features cexTxs)))).fail = 0 ∧
    sink_postcondition (write_to_feature_store 0 (fun _ => true)
        (transform_row (group_by_card_number (aggregate_features cexTxs)))) = false := by
  exact ⟨by decide, by decide, by decide⟩

/-! ### Claim 7 -/

/-- C7 (amended): on a batch with zero distinct account keys the Snapshot Sink
performs zero publishes and counts zero successes and zero failures, but the
run does not succeed: the end-of-run assertion fails because the success count
0 differs from the hard-coded `TOTAL_UNIQUE_USERS = 10000`. -/
theorem claim7_amended_empty_batch (t : Nat) (ack : List Feature → Bool) :
    (write_to_feature_store t ack
        (transform_row (group_by_card_number (aggregate_features [])))).published = [] ∧
    (write_to_feature_store t ack
        (transform_row (group_by_card_number (aggregate_features [])))).success = 0 ∧
    (write_to_feature_store t ack
        (transform_row (group_by_card_number (aggregate_features [])))).fail = 0 ∧
    sink_postcondition (write_to_feature_store t ack
        (transform_row (group_by_card_number (aggregate_features [])))) = false :=
  ⟨rfl, rfl, rfl, rfl⟩

/-- C7 counterexample: on the empty batch the sink indeed performs zero
publishes, but the run does not succeed trivially — the end-of-run assertion
evaluates to false. -/
theorem claim7_counterexample :
    (write_to_feature_store 0 (fun _ => true)
        (transform_row (group_by_card_number (aggregate_features [])))).published = [] ∧
    sink_postcondition (write_to_feature_store 0 (fun _ => true)
        (transform_row (group_by_card_number (aggregate_features [])))) = false :=
  ⟨rfl, rfl⟩

/-! ### Claim 5 -/

/-- C5: for every windowed record whose denominators are nonzero, the three
ratio columns are exactly `mean_short / mean_long`, `amount / mean_long` and
`count_short / count_long`. -/
theorem claim5_ratio_identities (txs : List Transaction) (w : WindowedRecord)
    (hw : w ∈ aggregate_features txs) :
    (w.avg_amt_last_1w ≠ 0 →
      w.amt_ratio1 = some (w.avg_amt_last_10m / w.avg_amt_last_1w) ∧
      w.amt_ratio2 = some (w.tx.amount / w.avg_amt_last_1w)) ∧
    ((w.num_trans_last_1w : ℚ) ≠ 0 →
      w.count_ratio = some ((w.num_trans_last_10m : ℚ) / (w.num_trans_last_1w : ℚ))) := by
  rcases List.mem_map.mp hw with ⟨cur, hcur, rfl⟩
  simp only [windowed] at *
  refine ⟨fun h => ⟨?_, ?_⟩, fun h => ?_⟩ <;> simp [spark_div, h]

/-- Witness for C5 at the record of the third example transaction. -/
theorem claim5_witness :
    ((windowed exampleTxs
        { tid := "t3", datetime := 36900, cc_num := some 1, amount := 30,
          fraud_label := none }).avg_amt_last_1w ≠ 0 →
      (windowed exampleTxs
        { tid := "t3", datetime := 36900, cc_num := some 1, amount := 30,
          fraud_label := none }).amt_ratio1 =
        some ((windowed exampleTxs
          { tid := "t3", datetime := 36900, cc_num := some 1, amount := 30,
            fraud_label := none }).avg_amt_last_10m /
          (windowed exampleTxs
          { tid := "t3", datetime := 36900, cc_num := some 1, amount := 30,
            fraud_label := none }).avg_amt_last_1w) ∧
      (windowed exampleTxs
        { tid := "t3", datetime := 36900, cc_num := some 1, amount := 30,
          fraud_label := none }).amt_ratio2 =
        some ((windowed exampleTxs
          { tid := "t3", datetime := 36900, cc_num := some 1, amount := 30,
            fraud_label := none }).tx.amount /
          (windowed exampleTxs
          { tid := "t3", datetime := 36900, cc_num := some 1, amount := 30,
            fraud_label := none }).avg_amt_last_1w)) ∧
    (((windowed exampleTxs
        { tid := "t3", datetime := 36900, cc_num := some 1, amount := 30,
          fraud_label := none }).num_trans_last_1w : ℚ) ≠ 0 →
      (windowed exampleTxs
        { tid := "t3", datetime := 36900, cc_num := some 1, amount := 30,
          fraud_label := none }).count_ratio =
        some (((windowed exampleTxs
          { tid := "t3", datetime := 36900, cc_num := some 1, amount := 30,
            fraud_label := none }).num_trans_last_10m : ℚ) /
          ((windowed exampleTxs
          { tid := "t3", datetime := 36900, cc_num := some 1, amount := 30,
            fraud_label := none }).num_trans_last_1w : ℚ))) :=
  claim5_ratio_identities exampleTxs _
    (List.mem_map_of_mem (windowed exampleTxs) (by simp [exampleTxs]))

/-! ### Claim 6 -/

/-- C6 counterexample: for the record whose 1-week mean is 0, the ratio
columns are indeed the NULL sentinel, but the record is NOT excluded from the
Latest-State Extractor's candidate set: `group_by_card_number` still selects
its projection. -/
theorem claim6_counterexample :
    windowed zeroTxs zeroTx ∈ aggregate_features zeroTxs ∧
    (windowed zeroTxs zeroTx).amt_ratio1 = none ∧
    (windowed zeroTxs zeroTx).amt_ratio2 = none ∧
    slice_row (windowed zeroTxs zeroTx) ∈
      group_by_card_number (aggregate_features zeroTxs) := by
  have havg : avg_amount (window_rows longHorizon zeroTxs zeroTx) = 0 := by
    norm_num [avg_amount, window_rows, in_window, zeroTxs, zeroTx, longHorizon]
  refine ⟨List.mem_map_of_mem (windowed zeroTxs) (by simp [zeroTxs]), ?_, ?_, ?_⟩
  · simp only [windowed]
    simp [spark_div, havg]
  · simp only [windowed]
    simp [spark_div, havg]
  · exact List.mem_singleton.mpr rfl

/-- C6 (amended): when a ratio denominator (the 1-week mean) is exactly zero,
the engine emits the NULL sentinel rather than a non-finite number, so the
record carries null ratio columns; but such records are not excluded from the
Latest-State Extractor's candidate set — whenever such a record has rank 1 in
its partition it is still selected by `group_by_card_number`. -/
theorem claim6_amended_null_sentinel (txs : List Transaction) (w : WindowedRecord)
    (hw : w ∈ aggregate_features txs) (h0 : w.avg_amt_last_1w = 0) :
    w.amt_ratio1 = none ∧ w.amt_ratio2 = none ∧
    (is_rank_one (aggregate_features txs) w = true →
      slice_row w ∈ group_by_card_number (aggregate_features txs)) := by
  refine ⟨?_, ?_, fun hrank => ?_⟩
  · rcases List.mem_map.mp hw with ⟨cur, hcur, rfl⟩
    simp only [windowed] at h0 ⊢
    simp [spark_div, h0]
  · rcases List.mem_map.mp hw with ⟨cur, hcur, rfl⟩
    simp only [windowed] at h0 ⊢
    simp [spark_div, h0]
  · exact List.mem_map_of_mem slice_row (List.mem_filter.mpr ⟨hw, hrank⟩)

/-- Witness for C6 (amended) at the zero-amount one-transaction input. -/
theorem claim6_witness :
    (windowed zeroTxs zeroTx).amt_ratio1 = none ∧
    (windowed zeroTxs zeroTx).amt_ratio2 = none ∧
    (is_rank_one (aggregate_features zeroTxs) (windowed zeroTxs zeroTx) = true →
      slice_row (windowed zeroTxs zeroTx) ∈
        group_by_card_number (aggregate_features zeroTxs)) :=
  claim6_amended_null_sentinel zeroTxs _
    (List.mem_map_of_mem (windowed zeroTxs) (by simp [zeroTxs]))
    (by norm_num [windowed, avg_amount, window_rows, in_window, zeroTxs, zeroTx, longHorizon])

/-! ### Claim 3 -/

lemma in_window_eq_decide (delta : Int) (cur r : Transaction) :
    in_window delta cur r = decide (r.cc_num = cur.cc_num ∧
      cur.datetime - delta ≤ r.datetime ∧ r.datetime ≤ cur.datetime) := by
  simp [in_window, Bool.decide_and, Bool.and_assoc]

lemma window_rows_eq_filter (delta : Int) (txs : List Transaction) (cur : Transaction) :
    window_rows delta txs cur = txs.filter (fun r => decide (r.cc_num = cur.cc_num ∧
      cur.datetime - delta ≤ r.datetime ∧ r.datetime ≤ cur.datetime)) := by
  simp only [window_rows]
  exact congrArg (fun p => List.filter p txs) (funext (fun r => in_window_eq_decide delta cur r))

/-- C3: for the record at position `i` of the aggregator output, `count_short`
and `mean_short` are the cardinality and arithmetic mean of `amount` over all
records of the same partition with `event_time` in the closed interval
`[t_i - 10min, t_i]`, and `count_long` / `mean_long` likewise over
`[t_i - 1week, t_i]`; in particular, on the 10:00/10:05/10:15 example with
amounts 10/20/30, the record at 10:15 has `count_short = 2` and
`mean_short = 25`. -/
theorem claim3_window_semantics (txs : List Transaction) (i : Nat)
    (h1 : i < txs.length) (h2 : i < (aggregate_features txs).length) :
    (((aggregate_features txs).get ⟨i, h2⟩).num_trans_last_10m =
        (txs.filter (fun r => decide (r.cc_num = (txs.get ⟨i, h1⟩).cc_num ∧
          (txs.get ⟨i, h1⟩).datetime - 600 ≤ r.datetime ∧
          r.datetime ≤ (txs.get ⟨i, h1⟩).datetime))).length ∧
      ((aggregate_features txs).get ⟨i, h2⟩).avg_amt_last_10m =
        avg_amount (txs.filter (fun r => decide (r.cc_num = (txs.get ⟨i, h1⟩).cc_num ∧
          (txs.get ⟨i, h1⟩).datetime - 600 ≤ r.datetime ∧
          r.datetime ≤ (txs.get ⟨i, h1⟩).datetime))) ∧
      ((aggregate_features txs).get ⟨i, h2⟩).num_trans_last_1w =
        (txs.filter (fun r => decide (r.cc_num = (txs.get ⟨i, h1⟩).cc_num ∧
          (txs.get ⟨i, h1⟩).datetime - 604800 ≤ r.datetime ∧
          r.datetime ≤ (txs.get ⟨i, h1⟩).datetime))).length ∧
      ((aggregate_features txs).get ⟨i, h2⟩).avg_amt_last_1w =
        avg_amount (txs.filter (fun r => decide (r.cc_num = (txs.get ⟨i, h1⟩).cc_num ∧
          (txs.get ⟨i, h1⟩).datetime - 604800 ≤ r.datetime ∧
          r.datetime ≤ (txs.get ⟨i, h1⟩).datetime)))) ∧
    ((aggregate_features exampleTxs).get ⟨2, by simp [aggregate_features, exampleTxs]⟩ =
        windowed exampleTxs exTx3 ∧
      (windowed exampleTxs exTx3).num_trans_last_10m = 2 ∧
      (windowed exampleTxs exTx3).avg_amt_last_10m = 25) := by
  have hg : (aggregate_features txs).get ⟨i, h2⟩ = windowed txs (txs.get ⟨i, h1⟩) := by
    simp [aggregate_features]
  refine ⟨?_, rfl, by decide,
    by norm_num [windowed, avg_amount, window_rows, in_window, exampleTxs, exTx3, shortHorizon]⟩
  rw [hg]
  simp only [windowed, window_rows_eq_filter, shortHorizon, longHorizon]
  simp

/-- Witness for C3: the theorem applied at the example input and position 2
yields the concrete short-window count and mean. -/
theorem claim3_witness :
    (windowed exampleTxs exTx3).num_trans_last_10m = 2 ∧
    (windowed exampleTxs exTx3).avg_amt_last_10m = 25 :=
  ⟨(claim3_window_semantics exampleTxs 2 (by decide) (by decide)).2.2.1,
   (claim3_window_semantics exampleTxs 2 (by decide) (by decide)).2.2.2⟩

/-! ### Claims 9 and 10 -/

lemma mem_transform_row {rows : List SlicedRow} {r : List Feature} :
    r ∈ transform_row rows ↔
      ∃ row ∈ rows, ∃ n : Int, row.cc_num = some n ∧ n ≠ 0 ∧ r = row_features n row := by
  simp only [transform_row, List.mem_filterMap]
  constructor
  · rintro ⟨row, hrow, hmatch⟩
    cases hcc : row.cc_num with
    | none => rw [hcc] at hmatch; simp at hmatch
    | some n =>
      rw [hcc] at hmatch
      by_cases hn : n = 0
      · simp [hn] at hmatch
      · simp only [if_neg hn, Option.some.injEq] at hmatch
        exact ⟨row, hrow, n, hcc, hn, hmatch.symm⟩
  · rintro ⟨row, hrow, n, hcc, hn, rfl⟩
    refine ⟨row, hrow, ?_⟩
    rw [hcc]
    simp [hn]

lemma transform_row_length (rows : List SlicedRow) :
    (transform_row rows).length = (rows.filter (fun row => truthy row.cc_num)).length := by
  induction rows with
  | nil => rfl
  | cons a t ih =>
    simp only [transform_row, List.filterMap_cons, List.filter_cons] at *
    cases hcc : a.cc_num with
    | none => simpa [hcc, truthy] using ih
    | some n =>
      by_cases hn : n = 0
      · simpa [hcc, truthy, hn] using ih
      · simpa [hcc, truthy, hn] using ih

/-- C9: every record published by the sink carries exactly one feature named
`trans_time`, whose value is the publish-time clock rendered as an
integer-seconds string; and the whole record is the stringified projection
columns followed by that timestamp feature, so every feature value is
transmitted as a string. -/
theorem claim9_trans_time_append (t : Nat) (ack : List Feature → Bool)
    (rows : List SlicedRow) (r : List Feature)
    (hr : r ∈ (write_to_feature_store t ack (transform_row rows)).published) :
    (r.filter (fun f => decide (f.FeatureName = "trans_time"))).length = 1 ∧
    ({ FeatureName := "trans_time", ValueAsString := toString t } : Feature) ∈ r ∧
    ∃ row ∈ rows, ∃ n : Int, row.cc_num = some n ∧
      r = row_features n row ++
        [{ FeatureName := "trans_time", ValueAsString := toString t }] := by
  rw [write_to_feature_store_published] at hr
  rcases List.mem_map.mp hr with ⟨r0, hr0, rfl⟩
  rcases mem_transform_row.mp hr0 with ⟨row, hrow, n, hcc, hn, rfl⟩
  refine ⟨?_, ?_, row, hrow, n, hcc, rfl⟩
  · simp [row_features, List.filter_append]
  · simp

/-- Witness for C9 at a one-row input with key 5 and all-success
acknowledgments. -/
theorem claim9_witness :
    ((row_features 5 snapRow ++
        ([{ FeatureName := "trans_time", ValueAsString := toString 0 }] : List Feature)).filter
      (fun f => decide (f.FeatureName = "trans_time"))).length = 1 ∧
    ({ FeatureName := "trans_time", ValueAsString := toString 0 } : Feature) ∈
      row_features 5 snapRow ++
        ([{ FeatureName := "trans_time", ValueAsString := toString 0 }] : List Feature) ∧
    ∃ row ∈ [snapRow], ∃ n : Int, row.cc_num = some n ∧
      row_features 5 snapRow ++
          ([{ FeatureName := "trans_time", ValueAsString := toString 0 }] : List Feature) =
        row_features n row ++
          ([{ FeatureName := "trans_time", ValueAsString := toString 0 }] : List Feature) :=
  claim9_trans_time_append 0 (fun _ => true) [snapRow] _
    (by exact List.mem_singleton.mpr rfl)

/-- C10: the record-transformation step silently skips rows whose account key
is null or zero: the number of constructed records is the number of truthy-key
rows (so skipped rows are excluded from the sink's success/failure
accounting, whose total is that same number), and every published record's
`cc_num` feature comes from a non-null, nonzero key. -/
theorem claim10_skip_falsy_keys (t : Nat) (ack : List Feature → Bool)
    (rows : List SlicedRow) :
    (transform_row rows).length = (rows.filter (fun row => truthy row.cc_num)).length ∧
    (write_to_feature_store t ack (transform_row rows)).success +
        (write_to_feature_store t ack (transform_row rows)).fail =
      (rows.filter (fun row => truthy row.cc_num)).length ∧
    ∀ r ∈ (write_to_feature_store t ack (transform_row rows)).published,
      ∃ row ∈ rows, ∃ n : Int, row.cc_num = some n ∧ n ≠ 0 ∧
        ({ FeatureName := "cc_num", ValueAsString := toString n } : Feature) ∈ r := by
  refine ⟨transform_row_length rows, ?_, ?_⟩
  · rw [write_to_feature_store_counts]
    exact transform_row_length rows
  · intro r hr
    rw [write_to_feature_store_published] at hr
    rcases List.mem_map.mp hr with ⟨r0, hr0, rfl⟩
    rcases mem_transform_row.mp hr0 with ⟨row, hrow, n, hcc, hn, rfl⟩
    exact ⟨row, hrow, n, hcc, hn, by simp [row_features]⟩

/-- Witness for C10 at a three-row input containing a null key, a zero key and
the truthy key 5: exactly one record is constructed and accounted. -/
theorem claim10_witness :
    (transform_row skipRows).length = 1 ∧
    (write_to_feature_store 0 (fun _ => true) (transform_row skipRows)).success +
        (write_to_feature_store 0 (fun _ => true) (transform_row skipRows)).fail = 1 ∧
    ∀ r ∈ (write_to_feature_store 0 (fun _ => true) (transform_row skipRows)).published,
      ∃ row ∈ skipRows, ∃ n : Int, row.cc_num = some n ∧ n ≠ 0 ∧
        ({ FeatureName := "cc_num", ValueAsString := toString n } : Feature) ∈ r := by
  have h := claim10_skip_falsy_keys 0 (fun _ => true) skipRows
  exact ⟨h.1.trans (by decide), h.2.1.trans (by decide), h.2.2⟩

/-! ### Claim 1 -/

lemma rank_one_on_key (dfs : List WindowedRecord) (key : Option Int) (r : WindowedRecord)
    (hr : r.tx.cc_num = key) :
    is_rank_one dfs r =
      (key_rows dfs key).all (fun s => decide (s.tx.datetime ≤ r.tx.datetime)) := by
  induction dfs with
  | nil => rfl
  | cons a t ih =>
    simp only [is_rank_one, key_rows, List.all_cons, List.filter_cons] at ih ⊢
    by_cases ha : a.tx.cc_num = key
    · simp [ha, hr, ih]
    · simp [ha, hr, ih]

lemma exists_argmax (l : List WindowedRecord) (h : l ≠ []) :
    ∃ r ∈ l, ∀ s ∈ l, s.tx.datetime ≤ r.tx.datetime := by
  induction l with
  | nil => simp at h
  | cons a t ih =>
    by_cases ht : t = []
    · subst ht
      refine ⟨a, by simp, ?_⟩
      intro s hs
      rcases List.mem_cons.mp hs with rfl | hs
      · exact le_refl _
      · simp at hs
    · rcases ih ht with ⟨r, hrmem, hrmax⟩
      rcases le_total r.tx.datetime a.tx.datetime with hle | hle
      · refine ⟨a, by simp, ?_⟩
        intro s hs
        rcases List.mem_cons.mp hs with rfl | hs
        · exact le_refl _
        · exact (hrmax s hs).trans hle
      · refine ⟨r, List.mem_cons_of_mem a hrmem, ?_⟩
        intro s hs
        rcases List.mem_cons.mp hs with rfl | hs
        · exact hle
        · exact hrmax s hs

/-- C1 counterexample: on an input whose single account key carries two
records with the same (maximal) event time, the Latest-State Extractor
outputs two rows for that key, not exactly one — `dense_rank` gives both tied
rows rank 1 and the filter keeps both. -/
theorem claim1_counterexample :
    distinct_key_count tieTxs = 1 ∧
    ((group_by_card_number (aggregate_features tieTxs)).filter
      (fun s => decide (s.cc_num = some 1))).length = 2 :=
  ⟨by decide, by decide⟩

/-- C1 (amended): for every account key present in the derived stream, the
Latest-State Extractor outputs at least one Snapshot-shaped row for that key,
and the number of output rows for the key equals the number of records of
that key's partition achieving the partition-maximal event time — exactly one
when the maximum is unique, several on a tie (no input-sequence tie-break is
applied). -/
theorem claim1_amended_all_max_rows (dfs : List WindowedRecord) (key : Option Int)
    (h : key_rows dfs key ≠ []) :
    1 ≤ ((group_by_card_number dfs).filter (fun s => decide (s.cc_num = key))).length ∧
    ((group_by_card_number dfs).filter (fun s => decide (s.cc_num = key))).length =
      ((key_rows dfs key).filter (fun r =>
        (key_rows dfs key).all (fun s => decide (s.tx.datetime ≤ r.tx.datetime)))).length := by
  have heq : (group_by_card_number dfs).filter (fun s => decide (s.cc_num = key)) =
      ((key_rows dfs key).filter (fun r =>
        (key_rows dfs key).all (fun s => decide (s.tx.datetime ≤ r.tx.datetime)))).map
        slice_row := by
    show ((dfs.filter (fun r => is_rank_one dfs r)).map slice_row).filter
        (fun s => decide (s.cc_num = key)) = _
    rw [List.filter_map, List.filter_comm]
    show ((key_rows dfs key).filter (fun r => is_rank_one dfs r)).map slice_row = _
    congr 1
    apply List.filter_congr
    intro r hrmem
    exact rank_one_on_key dfs key r (of_decide_eq_true (List.mem_filter.mp hrmem).2)
  rcases exists_argmax (key_rows dfs key) h with ⟨r, hrmem, hrmax⟩
  have hpred : (key_rows dfs key).all
      (fun s => decide (s.tx.datetime ≤ r.tx.datetime)) = true :=
    List.all_eq_true.mpr (fun s hs => decide_eq_true (hrmax s hs))
  constructor
  · rw [heq, List.length_map]
    exact List.length_pos.mpr (List.ne_nil_of_mem (List.mem_filter.mpr ⟨hrmem, hpred⟩))
  · rw [heq, List.length_map]

/-- Witness for C1 (amended) at the tied two-transaction input. -/
theorem claim1_witness :
    1 ≤ ((group_by_card_number (aggregate_features tieTxs)).filter
      (fun s => decide (s.cc_num = some 1))).length ∧
    ((group_by_card_number (aggregate_features tieTxs)).filter
      (fun s => decide (s.cc_num = some 1))).length =
      ((key_rows (aggregate_features tieTxs) (some 1)).filter (fun r =>
        (key_rows (aggregate_features tieTxs) (some 1)).all
          (fun s => decide (s.tx.datetime ≤ r.tx.datetime)))).length :=
  claim1_amended_all_max_rows (aggregate_features tieTxs) (some 1) (by decide)
